import Mathlib

/-!
Shallow embedding of the `telemetry` Go package (files `otel_helper.go` and the
stdout setup file).  The package wires the OpenTelemetry SDK: it builds a
resource from a configured service name, constructs exporters and providers,
registers them as process-wide defaults, and is supposed to hand back a
composite shutdown function.

External library calls (resource construction, exporter construction, provider
shutdown, gRPC client creation) are modelled by an oracle `World` that fixes
the outcome of each call; the control flow, data flow and deferred-call
semantics of the package itself are translated from the source.  Every
function returns, besides its value, the list of observable events it caused
(global registrations, constructor calls, provider shutdowns), and setups
record whether a run panicked (a deferred call of a nil function value in Go
panics at function return).
-/

namespace Telemetry

/-- Go `error` values as produced by this package: base errors, `fmt.Errorf`
wrapping with `%w`, and `errors.Join` results. -/
inductive GoErr : Type
  | base (msg : String)
  | wrap (msg : String) (cause : GoErr)
  | join (es : List GoErr)

/-- `errors.Join(a, b)` for two arguments: nil if both are nil, otherwise a
join error carrying the non-nil arguments in order. -/
def errorsJoin (a b : Option GoErr) : Option GoErr :=
  match a, b with
  | none, none => none
  | some x, none => some (GoErr.join [x])
  | none, some y => some (GoErr.join [y])
  | some x, some y => some (GoErr.join [x, y])

/-- A `context.Context` value.  The package never inspects the context, it
only threads it through; an opaque identifier models distinct contexts. -/
structure Ctx : Type where
  id : Nat
deriving DecidableEq

/-- The `config.Config` dependency: only its `Get(key string) string` method
is used. -/
structure Config : Type where
  get : String → String

/-- The type of shutdown callbacks, `func(context.Context) error`. -/
def ShutFn : Type := Ctx → Option GoErr

/-- Observable events of a run: calls into the gRPC and OpenTelemetry
libraries that construct something or mutate process-wide state, and provider
shutdown invocations. -/
inductive Event : Type
  | grpcNewClient (target : String) (insecureCreds : Bool)
  | resourceNew (attrs : List (String × String))
  | setTextMapPropagator
  | traceExporterNew
  | setTracerProvider
  | metricExporterNew
  | setMeterProvider
  | tracerShutdown
  | meterShutdown
deriving DecidableEq

/-- Oracle fixing the outcome of every external library call a run can make:
`none` means the call succeeds, `some e` that it fails with `e`; the two
shutdown fields give the result of the corresponding provider `Shutdown`. -/
structure World : Type where
  connErr : Option GoErr
  resErr : Option GoErr
  traceExpErr : Option GoErr
  metricExpErr : Option GoErr
  tracerShutdownErr : Option GoErr
  meterShutdownErr : Option GoErr

/-- `propagation.TextMapPropagator` values built by this package. -/
inductive TextMapPropagator : Type
  | traceContext
  | baggage
  | composite (ps : List TextMapPropagator)

/-- `newPropagator` returns the composite of `TraceContext` and `Baggage`. -/
def newPropagator : TextMapPropagator :=
  TextMapPropagator.composite
    [TextMapPropagator.traceContext, TextMapPropagator.baggage]

/-- The local slice of `shutdown` in `otel_helper.go`: it is initialized with
`make([]func(context.Context) error, 0)` right before the loop, so it is the
empty list. -/
def shutdownFuncs : List ShutFn := []

/-- `shutdown` from `otel_helper.go`: iterates `shutdownFuncs`, joining each
result into `err`, and returns `err`. -/
def shutdown (ctx : Ctx) : Option GoErr :=
  shutdownFuncs.foldl (fun err fn => errorsJoin err (fn ctx)) none

/-- `handleErr` from `otel_helper.go`: when `err` is non-nil it computes
`errors.Join(err, shutdown(ctx))`, assigns it to a local and discards it
(`_ = err`); nothing is returned and no observable event results. -/
def handleErr (err : Option GoErr) (ctx : Ctx) : Unit × List Event :=
  match err with
  | none => ((), [])
  | some e =>
    let _discarded := errorsJoin (some e) (shutdown ctx)
    ((), [])

/-- A `*grpc.ClientConn` as created by `grpc.NewClient`: it records the target
address and whether insecure transport credentials were supplied. -/
structure Conn : Type where
  target : String
  insecureCreds : Bool
deriving DecidableEq

/-- `*trace.TracerProvider` built by `newTraceProvider`: it carries the
resource it was configured with; the outcome of its `Shutdown` is fixed by the
oracle at construction. -/
structure TracerProvider : Type where
  res : List (String × String)
  shutdownRes : Option GoErr

/-- `tracerProvider.Shutdown(ctx)`. -/
def TracerProvider.Shutdown (tp : TracerProvider) (_ctx : Ctx) : Option GoErr :=
  tp.shutdownRes

/-- `*metric.MeterProvider` built by `newMeterProvider`. -/
structure MeterProvider : Type where
  res : List (String × String)
  shutdownRes : Option GoErr

/-- `meterProvider.Shutdown(ctx)`. -/
def MeterProvider.Shutdown (mp : MeterProvider) (_ctx : Ctx) : Option GoErr :=
  mp.shutdownRes

/-- `newTraceProvider` from the stdout file: calls `stdouttrace.New`; on
failure returns the error unchanged, otherwise a provider batching that
exporter over the given resource. -/
def newTraceProvider (res : List (String × String)) (w : World) :
    Except GoErr TracerProvider × List Event :=
  match w.traceExpErr with
  | some e => (Except.error e, [Event.traceExporterNew])
  | none => (Except.ok ⟨res, w.tracerShutdownErr⟩, [Event.traceExporterNew])

/-- `newMeterProvider` from the stdout file: calls `stdoutmetric.New`; on
failure returns the error unchanged, otherwise a provider reading that
exporter periodically over the given resource. -/
def newMeterProvider (res : List (String × String)) (w : World) :
    Except GoErr MeterProvider × List Event :=
  match w.metricExpErr with
  | some e => (Except.error e, [Event.metricExporterNew])
  | none => (Except.ok ⟨res, w.meterShutdownErr⟩, [Event.metricExporterNew])

/-- Result of a setup function: the named returns `shutdown` and `err`,
whether the run panicked (a deferred call of a nil function value), and the
observable events in order. -/
structure SetupResult : Type where
  shutdown : Option ShutFn
  err : Option GoErr
  panicked : Bool
  events : List Event

/-- `SetupOTelSDKStdout`: builds the resource from the configured service
name, registers propagator, tracer provider and meter provider, defers their
shutdowns, and returns.  The named return `shutdown` is never assigned.  On a
return after both defers are registered, the deferred closures run in reverse
registration order: meter provider shutdown, then tracer provider shutdown. -/
def SetupOTelSDKStdout (ctx : Ctx) (cfg : Config) (w : World) : SetupResult :=
  let attrs := [("SERVICE_NAME", cfg.get "APP_NAME")]
  match w.resErr with
  | some e =>
    let _ := handleErr (some e) ctx
    { shutdown := none, err := some e, panicked := false,
      events := [Event.resourceNew attrs] }
  | none =>
    let res := attrs
    let _prop := newPropagator
    let (tpRes, evT) := newTraceProvider res w
    match tpRes with
    | Except.error e =>
      let _ := handleErr (some e) ctx
      { shutdown := none, err := some e, panicked := false,
        events := [Event.resourceNew attrs, Event.setTextMapPropagator] ++ evT }
    | Except.ok tracerProvider =>
      let (mpRes, evM) := newMeterProvider res w
      match mpRes with
      | Except.error e =>
        let _ := handleErr (some e) ctx
        let _ := handleErr (tracerProvider.Shutdown ctx) ctx
        { shutdown := none, err := some e, panicked := false,
          events := [Event.resourceNew attrs, Event.setTextMapPropagator] ++
            evT ++ [Event.setTracerProvider] ++ evM ++ [Event.tracerShutdown] }
      | Except.ok meterProvider =>
        let _ := handleErr (meterProvider.Shutdown ctx) ctx
        let _ := handleErr (tracerProvider.Shutdown ctx) ctx
        { shutdown := none, err := none, panicked := false,
          events := [Event.resourceNew attrs, Event.setTextMapPropagator] ++
            evT ++ [Event.setTracerProvider] ++ evM ++
            [Event.setMeterProvider, Event.meterShutdown, Event.tracerShutdown] }

/-- `initConn` from `otel_helper.go`: `grpc.NewClient("localhost:4317",
grpc.WithTransportCredentials(insecure.NewCredentials()))`; a failure is
wrapped with a message. -/
def initConn (w : World) : Except GoErr Conn × List Event :=
  match w.connErr with
  | some e =>
    (Except.error (GoErr.wrap "failed to create gRPC connection to collector" e),
      [Event.grpcNewClient "localhost:4317" true])
  | none =>
    (Except.ok ⟨"localhost:4317", true⟩,
      [Event.grpcNewClient "localhost:4317" true])

/-- `initTracerProvider` from `otel_helper.go`: creates the OTLP trace
exporter over the connection (failure wrapped), registers the tracer provider
and the trace-context propagator globally, and returns the provider shutdown
callback. -/
def initTracerProvider (_ctx : Ctx) (_res : List (String × String))
    (_conn : Option Conn) (w : World) : Except GoErr ShutFn × List Event :=
  match w.traceExpErr with
  | some e =>
    (Except.error (GoErr.wrap "failed to create trace exporter" e),
      [Event.traceExporterNew])
  | none =>
    (Except.ok (fun _ => w.tracerShutdownErr),
      [Event.traceExporterNew, Event.setTracerProvider,
        Event.setTextMapPropagator])

/-- `initMeterProvider` from `otel_helper.go`: creates the OTLP metric
exporter over the connection (failure wrapped), registers the meter provider
globally, and returns the provider shutdown callback. -/
def initMeterProvider (_ctx : Ctx) (_res : List (String × String))
    (_conn : Option Conn) (w : World) : Except GoErr ShutFn × List Event :=
  match w.metricExpErr with
  | some e =>
    (Except.error (GoErr.wrap "failed to create metrics exporter" e),
      [Event.metricExporterNew])
  | none =>
    (Except.ok (fun _ => w.meterShutdownErr),
      [Event.metricExporterNew, Event.setMeterProvider])

/-- `SetupOTelSDKGrpc`: creates the gRPC connection (continuing even when
that fails, since the `if err != nil` branch calls `handleErr` without a
`return`), builds the resource (returning on failure), registers the
propagator, then initializes the tracer and meter providers.  After each
provider initialization the error branch again lacks a `return`, and a defer
is registered that calls the corresponding shutdown variable, which is nil
when the initialization failed: such a deferred call panics at function
return.  The named returns: `shutdown` is never assigned; `err` holds the
result of the last assignment, which is the meter provider initialization. -/
def SetupOTelSDKGrpc (ctx : Ctx) (cfg : Config) (w : World) : SetupResult :=
  let (connRes, ev1) := initConn w
  let conn : Option Conn := match connRes with
    | Except.ok c => some c
    | Except.error _ => none
  let _ := match connRes with
    | Except.error e => handleErr (some e) ctx
    | Except.ok _ => ((), [])
  let attrs := [("SERVICE_NAME", cfg.get "APP_NAME")]
  match w.resErr with
  | some e =>
    let _ := handleErr (some e) ctx
    { shutdown := none, err := some e, panicked := false,
      events := ev1 ++ [Event.resourceNew attrs] }
  | none =>
    let res := attrs
    let _prop := newPropagator
    let (tpRes, evT) := initTracerProvider ctx res conn w
    let shutdownTracerProvider : Option ShutFn := match tpRes with
      | Except.ok f => some f
      | Except.error _ => none
    let _ := match tpRes with
      | Except.error e => handleErr (some e) ctx
      | Except.ok _ => ((), [])
    let (mpRes, evM) := initMeterProvider ctx res conn w
    let shutdownMeterProvider : Option ShutFn := match mpRes with
      | Except.ok f => some f
      | Except.error _ => none
    let _ := match mpRes with
      | Except.error e => handleErr (some e) ctx
      | Except.ok _ => ((), [])
    let errRet : Option GoErr := match mpRes with
      | Except.error e => some e
      | Except.ok _ => none
    let deferEvents : List Event :=
      (match shutdownMeterProvider with
        | some f =>
          let _ := handleErr (f ctx) ctx
          [Event.meterShutdown]
        | none => []) ++
      (match shutdownTracerProvider with
        | some f =>
          let _ := handleErr (f ctx) ctx
          [Event.tracerShutdown]
        | none => [])
    { shutdown := none, err := errRet,
      panicked := shutdownMeterProvider.isNone || shutdownTracerProvider.isNone,
      events := ev1 ++ [Event.resourceNew attrs, Event.setTextMapPropagator] ++
        evT ++ evM ++ deferEvents }

/-- C1: the spec promises that a successful setup returns a non-nil composite
shutdown function; in the code the named return `shutdown` is never assigned,
so a run of either setup in which every library call succeeds returns with
`err` nil and `shutdown` nil. -/
theorem setup_success_returns_nil_shutdown :
    (SetupOTelSDKStdout ⟨0⟩ ⟨fun _ => "svc"⟩
      ⟨none, none, none, none, none, none⟩).err = none ∧
    (SetupOTelSDKStdout ⟨0⟩ ⟨fun _ => "svc"⟩
      ⟨none, none, none, none, none, none⟩).shutdown = none ∧
    (SetupOTelSDKGrpc ⟨0⟩ ⟨fun _ => "svc"⟩
      ⟨none, none, none, none, none, none⟩).err = none ∧
    (SetupOTelSDKGrpc ⟨0⟩ ⟨fun _ => "svc"⟩
      ⟨none, none, none, none, none, none⟩).shutdown = none :=
  ⟨rfl, rfl, rfl, rfl⟩

/-- C2: the spec says every construction failure aborts the setup and
surfaces to the caller; in `SetupOTelSDKGrpc` the `initConn` error branch
calls `handleErr` without `return`, so when only the connection creation
fails the run still performs the resource construction and both provider
registrations, and returns `err` nil: the error is swallowed. -/
theorem grpc_continues_and_swallows_conn_error :
    (SetupOTelSDKGrpc ⟨0⟩ ⟨fun _ => "svc"⟩
      ⟨some (GoErr.base "dial failed"), none, none, none, none, none⟩).err
      = none ∧
    Event.resourceNew [("SERVICE_NAME", "svc")] ∈
      (SetupOTelSDKGrpc ⟨0⟩ ⟨fun _ => "svc"⟩
        ⟨some (GoErr.base "dial failed"), none, none, none, none, none⟩).events ∧
    Event.setMeterProvider ∈
      (SetupOTelSDKGrpc ⟨0⟩ ⟨fun _ => "svc"⟩
        ⟨some (GoErr.base "dial failed"), none, none, none, none, none⟩).events :=
  ⟨rfl, by decide, by decide⟩

/-- C3: the spec says a failing setup does not panic; in `SetupOTelSDKGrpc`
a failure of `initTracerProvider` leaves `shutdownTracerProvider` nil while
the deferred closure that calls it is still registered, so the run panics at
function return on a nil-function call. -/
theorem grpc_panics_on_tracer_init_failure :
    (SetupOTelSDKGrpc ⟨0⟩ ⟨fun _ => "svc"⟩
      ⟨none, none, some (GoErr.base "exporter down"), none, none, none⟩).panicked
      = true :=
  rfl

/-- C4: the `shutdown` helper initializes its callback slice to the empty
list right before iterating it, so it iterates over zero callbacks and
returns nil for every context. -/
theorem shutdown_helper_empty_and_nil :
    shutdownFuncs.length = 0 ∧ ∀ ctx : Ctx, shutdown ctx = none :=
  ⟨rfl, fun _ => rfl⟩

/-- C5: in every run of either setup in which both the tracer provider and
the meter provider are registered, the deferred shutdown calls run in reverse
registration order: the meter provider shutdown event strictly precedes the
tracer provider shutdown event in the trace. -/
theorem provider_shutdown_reverse_order :
    ∀ (ctx : Ctx) (cfg : Config) (w : World),
    w.resErr = none → w.traceExpErr = none → w.metricExpErr = none →
    (∃ p q, (SetupOTelSDKStdout ctx cfg w).events =
      p ++ Event.meterShutdown :: q ++ [Event.tracerShutdown]) ∧
    (∃ p q, (SetupOTelSDKGrpc ctx cfg w).events =
      p ++ Event.meterShutdown :: q ++ [Event.tracerShutdown]) := by
  intro ctx cfg w hr ht hm
  obtain ⟨ce, re, te, me, tse, mse⟩ := w
  cases re with
  | some e => exact Option.noConfusion hr
  | none =>
  cases te with
  | some e => exact Option.noConfusion ht
  | none =>
  cases me with
  | some e => exact Option.noConfusion hm
  | none =>
  constructor
  · exact ⟨[Event.resourceNew [("SERVICE_NAME", cfg.get "APP_NAME")],
      Event.setTextMapPropagator, Event.traceExporterNew,
      Event.setTracerProvider, Event.metricExporterNew,
      Event.setMeterProvider], [], rfl⟩
  · cases ce <;>
      exact ⟨[Event.grpcNewClient "localhost:4317" true,
        Event.resourceNew [("SERVICE_NAME", cfg.get "APP_NAME")],
        Event.setTextMapPropagator, Event.traceExporterNew,
        Event.setTracerProvider, Event.setTextMapPropagator,
        Event.metricExporterNew, Event.setMeterProvider], [], rfl⟩

/-- C5 witness: the reverse shutdown order at a concrete context,
configuration and all-successful oracle. -/
theorem provider_shutdown_reverse_order_witness :
    (∃ p q, (SetupOTelSDKStdout ⟨0⟩ ⟨fun _ => "svc"⟩
      ⟨none, none, none, none, none, none⟩).events =
      p ++ Event.meterShutdown :: q ++ [Event.tracerShutdown]) ∧
    (∃ p q, (SetupOTelSDKGrpc ⟨0⟩ ⟨fun _ => "svc"⟩
      ⟨none, none, none, none, none, none⟩).events =
      p ++ Event.meterShutdown :: q ++ [Event.tracerShutdown]) :=
  provider_shutdown_reverse_order ⟨0⟩ ⟨fun _ => "svc"⟩
    ⟨none, none, none, none, none, none⟩ rfl rfl rfl

/-- C6: the spec says the composite shutdown joins the errors of the
registered callbacks and keeps invoking the remaining ones; in the code the
callback list is always empty and the returned composite is nil, so no run of
the helper ever invokes a callback or joins an error. -/
theorem shutdown_helper_never_joins :
    shutdownFuncs = ([] : List ShutFn) ∧ shutdown ⟨0⟩ = none :=
  ⟨rfl, rfl⟩

/-- C7: `initConn` always calls `grpc.NewClient` with the fixed target
`localhost:4317` and insecure transport credentials, and every run of
`SetupOTelSDKGrpc` starts with exactly that call. -/
theorem initConn_localhost_insecure :
    ∀ (w : World) (ctx : Ctx) (cfg : Config),
    (initConn w).2 = [Event.grpcNewClient "localhost:4317" true] ∧
    (SetupOTelSDKGrpc ctx cfg w).events.head? =
      some (Event.grpcNewClient "localhost:4317" true) ∧
    (initConn ⟨none, none, none, none, none, none⟩).1 =
      Except.ok ⟨"localhost:4317", true⟩ := by
  intro w ctx cfg
  obtain ⟨ce, re, te, me, tse, mse⟩ := w
  refine ⟨?_, ?_, rfl⟩
  · cases ce <;> rfl
  · cases ce <;> cases re <;> cases te <;> cases me <;> rfl

/-- C8: both setups call the resource constructor with exactly one attribute,
the string pair of key `SERVICE_NAME` and the configured value under
`APP_NAME`: an attribute list occurs in a resource-construction event of
either trace exactly when it is that singleton. -/
theorem resource_attrs_single_service_name :
    ∀ (ctx : Ctx) (cfg : Config) (w : World) (a : List (String × String)),
    (Event.resourceNew a ∈ (SetupOTelSDKStdout ctx cfg w).events ↔
      a = [("SERVICE_NAME", cfg.get "APP_NAME")]) ∧
    (Event.resourceNew a ∈ (SetupOTelSDKGrpc ctx cfg w).events ↔
      a = [("SERVICE_NAME", cfg.get "APP_NAME")]) := by
  intro ctx cfg w a
  obtain ⟨ce, re, te, me, tse, mse⟩ := w
  constructor
  · cases re <;> cases te <;> cases me <;>
      simp [SetupOTelSDKStdout, newTraceProvider, newMeterProvider, handleErr]
  · cases ce <;> cases re <;> cases te <;> cases me <;>
      simp [SetupOTelSDKGrpc, initConn, initTracerProvider, initMeterProvider,
        handleErr]

/-- C9: for every context, configuration and oracle, the `shutdown` value
returned by both setup functions is nil: the named return is never assigned
in either body. -/
theorem returned_shutdown_always_nil :
    ∀ (ctx : Ctx) (cfg : Config) (w : World),
    (SetupOTelSDKStdout ctx cfg w).shutdown = none ∧
    (SetupOTelSDKGrpc ctx cfg w).shutdown = none := by
  intro ctx cfg w
  obtain ⟨ce, re, te, me, tse, mse⟩ := w
  constructor
  · cases re <;> cases te <;> cases me <;> rfl
  · cases ce <;> cases re <;> cases te <;> cases me <;> rfl

/-- C10: `handleErr` has no caller-visible effect: for every error value and
context it returns unit with no observable event, while for a non-nil error
the joined value it assigns to its discarded local is itself non-nil, so an
error really is dropped. -/
theorem handleErr_no_caller_visible_effect :
    ∀ (err : Option GoErr) (ctx : Ctx),
    handleErr err ctx = ((), []) ∧
    ∀ e : GoErr, errorsJoin (some e) (shutdown ctx) = some (GoErr.join [e]) := by
  intro err ctx
  refine ⟨?_, fun e => rfl⟩
  cases err <;> rfl

end Telemetry
